import Mathlib

/-!
Verification of the resilient paginated retrieval engine
(`src/helper/src/services/falcon_client.py` together with the data model in
`src/helper/src/models/`).  The Python source is shallowly embedded: pure
functions become Lean functions, the stateful retry / pagination loops become
explicit recursion on the loop counters with the network modelled as an
oracle function from attempt indices to outcomes, and machine-level effects
(logging, sleeping) are recorded as instrumentation in the returned values.
-/

namespace Secman

/-- `ExitCode` enum from `src/models/enums.py`. -/
inductive ExitCode where
  | SUCCESS
  | AUTH_ERROR
  | NETWORK_ERROR
  | INVALID_ARGS
  | API_ERROR
  | EXPORT_ERROR
deriving DecidableEq, Repr

/-- Numeric value of each member of the `ExitCode` IntEnum. -/
def ExitCode.code : ExitCode → Nat
  | .SUCCESS => 0
  | .AUTH_ERROR => 1
  | .NETWORK_ERROR => 2
  | .INVALID_ARGS => 3
  | .API_ERROR => 4
  | .EXPORT_ERROR => 5

/-- `Severity` enum from `src/models/enums.py` (a `str` enum). -/
inductive Severity where
  | CRITICAL
  | HIGH
  | MEDIUM
deriving DecidableEq, Repr

/-- The string value of each `Severity` member. -/
def Severity.value : Severity → String
  | .CRITICAL => "CRITICAL"
  | .HIGH => "HIGH"
  | .MEDIUM => "MEDIUM"

/-- `DeviceType` enum from `src/models/enums.py` (a `str` enum). -/
inductive DeviceType where
  | CLIENT
  | SERVER
  | BOTH
deriving DecidableEq, Repr

/-- The string value of each `DeviceType` member. -/
def DeviceType.value : DeviceType → String
  | .CLIENT => "CLIENT"
  | .SERVER => "SERVER"
  | .BOTH => "BOTH"

/-- `FilterCriteria` dataclass from `src/models/filter_criteria.py`.
`min_days_open` is validated non-negative by `__post_init__`, so it is a
`Nat`; the non-emptiness of `severities` is carried as a hypothesis where a
theorem needs it.  `ad_domain`/`hostname` are `Optional[str]`. -/
structure FilterCriteria where
  device_type : DeviceType
  severities : List Severity
  min_days_open : Nat
  ad_domain : Option String := none
  hostname : Option String := none
deriving Repr

/-- The `cve` sub-dictionary of a raw API resource, as read by
`FalconClient._parse_resource`.  The CVSS score is an opaque number; it is
only passed through, never computed with. -/
structure CveData where
  id : Option String := none
  severity : Option String := none
  cvss_score : Option Rat := none
  description : Option String := none
deriving Repr

/-- The `apps` sub-dictionary of a raw API resource. -/
structure AppsData where
  product_name_version : Option String := none
deriving Repr

/-- The `host` sub-dictionary of a raw API resource. -/
structure HostData where
  hostname : Option String := none
  local_ip : Option String := none
  groups : Option (List String) := none
  cloud_provider_account_id : Option String := none
  instance_id : Option String := none
  os_version : Option String := none
  ad_domain : Option String := none
  platform_name : Option String := none
deriving Repr

/-- One raw element of a page's `resources` list.  Every field is optional,
mirroring the defensive `dict.get` reads in `_parse_resource`. -/
structure RawResource where
  cve : Option CveData := none
  apps : Option AppsData := none
  created_timestamp : Option String := none
  host : Option HostData := none
  id : Option String := none
deriving Repr

/-- The body of a successful page response, as consumed by
`query_vulnerabilities`: `resources` is `body.resources` (default `[]`) and
`total` is `body.meta.pagination.total`, kept optional because the code reads
it with `pagination.get("total", 0)`. -/
structure PageBody where
  resources : List RawResource := []
  total : Option Nat := none
deriving Repr

/-- One outcome of calling `client.queryVulnerabilitiesCombined`: either a
response carrying a status code and a body, or a raised exception.
`transient` is true when the exception message contains `"timeout"` or
`"connection"` (the retryable transport errors of `_query_with_retry`). -/
inductive Outcome where
  | resp (status : Nat) (body : PageBody)
  | exn (transient : Bool)
deriving Repr

/-- Instrumented result of `_query_with_retry`: the returned response body or
the raised `SystemExit` code, together with the number of network attempts
made, the list of backoff sleeps performed (in time-units: with
`base_delay = 1.0` second the sleep before the `(k+1)`-th retry is
`2 ^ k` units), and whether the unreachable post-loop fallback branch
produced the result. -/
structure RetryResult where
  outcome : Except ExitCode PageBody
  attempts : Nat
  delays : List Nat
  fellThrough : Bool
deriving Repr

/-- `max_retries` constant of `_query_with_retry`. -/
def max_retries : Nat := 5

/-- The `while retries <= max_retries` loop of
`FalconClient._query_with_retry`, recursion on the `retries` counter.  The
network is the oracle `attempt`, indexed by the current value of `retries`
(which increases by exactly 1 per iteration, so it is also the 0-based
attempt index).  `SystemExit` raises inside the `try` block are not caught by
`except Exception` (SystemExit derives from BaseException), so they surface
directly as `.error` here. -/
def queryWithRetryGo (attempt : Nat → Outcome) (retries : Nat) : RetryResult :=
  if _h : retries ≤ max_retries then
    match attempt retries with
    | .resp status body =>
      if status = 200 then ⟨.ok body, 1, [], false⟩
      else if status = 401 then ⟨.error .AUTH_ERROR, 1, [], false⟩
      else if status = 429 then
        if _h2 : max_retries ≤ retries then ⟨.error .API_ERROR, 1, [], false⟩
        else
          let r := queryWithRetryGo attempt (retries + 1)
          ⟨r.outcome, r.attempts + 1, 2 ^ retries :: r.delays, r.fellThrough⟩
      else if status = 502 ∨ status = 503 ∨ status = 504 then
        if _h2 : max_retries ≤ retries then ⟨.error .API_ERROR, 1, [], false⟩
        else
          let r := queryWithRetryGo attempt (retries + 1)
          ⟨r.outcome, r.attempts + 1, 2 ^ retries :: r.delays, r.fellThrough⟩
      else ⟨.error .API_ERROR, 1, [], false⟩
    | .exn transient =>
      if transient then
        if _h2 : max_retries ≤ retries then ⟨.error .NETWORK_ERROR, 1, [], false⟩
        else
          let r := queryWithRetryGo attempt (retries + 1)
          ⟨r.outcome, r.attempts + 1, 2 ^ retries :: r.delays, r.fellThrough⟩
      else ⟨.error .API_ERROR, 1, [], false⟩
  else ⟨.error .API_ERROR, 0, [], true⟩
termination_by (max_retries + 1) - retries
decreasing_by
  all_goals simp only [max_retries] at *; omega

/-- `_query_with_retry` starts its loop with `retries = 0`. -/
def queryWithRetry (attempt : Nat → Outcome) : RetryResult :=
  queryWithRetryGo attempt 0

/-- Retryable non-transport outcomes: a 429 or a 502/503/504 response. -/
def RateOrServer (o : Outcome) : Prop :=
  ∃ s b, o = .resp s b ∧ (s = 429 ∨ s = 502 ∨ s = 503 ∨ s = 504)

/-- The fixed page size `limit = 500` of `query_vulnerabilities`. -/
def limit : Nat := 500

/-- Instrumented result of one `query_vulnerabilities` run: the returned
record list or the propagated fatal `SystemExit` code, the offsets at which
page fetches were issued, the total number of network attempts, and all
backoff sleeps performed. -/
structure RunResult (α : Type) where
  result : Except ExitCode (List α)
  offsets : List Nat
  attempts : Nat
  delays : List Nat
deriving Repr

/-- The `while True` pagination loop of `FalconClient.query_vulnerabilities`,
with explicit fuel (the loop has no syntactic bound; `none` means the fuel
ran out before the loop terminated).  `attempt off k` is the outcome of the
`k`-th network attempt of the page fetch at offset `off`; `parse` is the
element parser, `none` modelling an exception that the `try/except` around
`_parse_resource` logs and skips (so `List.filterMap parse` is the body of
the `for resource in resources` loop). -/
def queryVulnerabilitiesGo {α : Type} (attempt : Nat → Nat → Outcome)
    (parse : RawResource → Option α) :
    Nat → Nat → List α → List Nat → Nat → List Nat → Option (RunResult α)
  | 0, _, _, _, _, _ => none
  | fuel + 1, offset, acc, offs, atts, dels =>
    let r := queryWithRetry (attempt offset)
    match r.outcome with
    | .error c => some ⟨.error c, offs ++ [offset], atts + r.attempts, dels ++ r.delays⟩
    | .ok body =>
      let acc2 := acc ++ body.resources.filterMap parse
      let total_records := body.total.getD 0
      if offset + limit ≥ total_records then
        some ⟨.ok acc2, offs ++ [offset], atts + r.attempts, dels ++ r.delays⟩
      else
        queryVulnerabilitiesGo attempt parse fuel (offset + limit) acc2
          (offs ++ [offset]) (atts + r.attempts) (dels ++ r.delays)

/-- `query_vulnerabilities` starts at `offset = 0` with empty accumulators. -/
def query_vulnerabilities {α : Type} (attempt : Nat → Nat → Outcome)
    (parse : RawResource → Option α) (fuel : Nat) : Option (RunResult α) :=
  queryVulnerabilitiesGo attempt parse fuel 0 [] [] 0 []

/-- Concatenation of the parsed resources of `m` consecutive pages starting
at `offset`, each page's internal order preserved. -/
def pagesConcat {α : Type} (parse : RawResource → Option α) (pages : Nat → PageBody) :
    Nat → Nat → List α
  | _, 0 => []
  | offset, m + 1 =>
    (pages offset).resources.filterMap parse ++ pagesConcat parse pages (offset + limit) m

/-- The offsets `offset, offset+limit, ..., offset+(m-1)*limit`. -/
def pageOffsets : Nat → Nat → List Nat
  | _, 0 => []
  | offset, m + 1 => offset :: pageOffsets (offset + limit) m

/-- The number of fetches `query_vulnerabilities` issues when every page
reports total `T`: `ceil(T / limit)`, except that the loop always fetches at
least one page. -/
def numPages (T : Nat) : Nat := max 1 ((T + limit - 1) / limit)

/-- Python's `sep.join(parts)`. -/
def joinSep (sep : String) : List String → String
  | [] => ""
  | [x] => x
  | x :: y :: ys => x ++ sep ++ joinSep sep (y :: ys)

/-- Python's `str.upper()`: character-wise uppercasing. -/
def strUpper (s : String) : String :=
  ⟨s.data.map Char.toUpper⟩

/-- The severity clause of `FilterCriteria.to_fql`:
`cve.severity:['V1','V2',...]`, a disjunctive membership test over the
requested severities, joined by `','.join`. -/
def sevClause (c : FilterCriteria) : String :=
  "cve.severity:[" ++ joinSep "," (c.severities.map fun s => "'" ++ s.value ++ "'") ++ "]"

/-- The `filters` list built by `FilterCriteria.to_fql`, in source order:
device-type clause, severity clause, AD-domain clause, hostname clause.
Python truthiness of the optional strings (`if self.ad_domain:`) makes a
present-but-empty string behave like an absent one. -/
def filtersList (c : FilterCriteria) : List String :=
  (if c.device_type = DeviceType.CLIENT then ["platform_name:*'Workstation'"]
   else if c.device_type = DeviceType.SERVER then ["platform_name:*'Server'"]
   else [])
  ++ (if c.severities.isEmpty then [] else [sevClause c])
  ++ (match c.ad_domain with
      | some d => if d = "" then [] else ["host.ad_domain:'" ++ d ++ "'"]
      | none => [])
  ++ (match c.hostname with
      | some h => if h = "" then [] else ["host.hostname:'" ++ h ++ "'"]
      | none => [])

/-- `FilterCriteria.to_fql`: clauses combined with the `+` conjunction. -/
def FilterCriteria.to_fql (c : FilterCriteria) : String :=
  if (filtersList c).isEmpty then "" else joinSep "+" (filtersList c)

/-- Two-digit zero padding, as `strftime` does for `%m %d %H %M %S`. -/
def pad2 (n : Nat) : String :=
  if n < 10 then "0" ++ toString n else toString n

/-- Four-digit zero padding, as `strftime` does for `%Y`. -/
def pad4 (n : Nat) : String :=
  if n < 10 then "000" ++ toString n
  else if n < 100 then "00" ++ toString n
  else if n < 1000 then "0" ++ toString n
  else toString n

/-- Proleptic-Gregorian civil date `(year, month, day)` from a day count
since the Unix epoch (Howard Hinnant's `civil_from_days`, restricted to
non-negative day counts, which is all `datetime` produces here). -/
def civilFromDays (z : Nat) : Nat × Nat × Nat :=
  let z' := z + 719468
  let era := z' / 146097
  let doe := z' % 146097
  let yoe := (doe - doe / 1460 + doe / 36524 - doe / 146096) / 365
  let y := yoe + era * 400
  let doy := doe - (365 * yoe + yoe / 4 - yoe / 100)
  let mp := (5 * doy + 2) / 153
  let d := doy - (153 * mp + 2) / 5 + 1
  let m := if mp < 10 then mp + 3 else mp - 9
  if m ≤ 2 then (y + 1, m, d) else (y, m, d)

/-- `cutoff.strftime("%Y-%m-%dT%H:%M:%S")` for a UTC instant given as
seconds since the Unix epoch. -/
def isoBody (secs : Nat) : String :=
  let days := secs / 86400
  let rem := secs % 86400
  let hh := rem / 3600
  let mi := rem % 3600 / 60
  let ss := rem % 60
  let ymd := civilFromDays days
  pad4 ymd.1 ++ "-" ++ pad2 ymd.2.1 ++ "-" ++ pad2 ymd.2.2 ++ "T" ++
    pad2 hh ++ ":" ++ pad2 mi ++ ":" ++ pad2 ss

/-- `cutoff.strftime("%Y-%m-%dT%H:%M:%SZ")`: the timestamp body followed by
the literal `Z` suffix. -/
def isoFormat (secs : Nat) : String :=
  isoBody secs ++ "Z"

/-- `FalconClient._build_fql_filter`.  `now` is `datetime.now(timezone.utc)`
as seconds since the Unix epoch; `timedelta(days=d)` is `86400 * d`
seconds, so `cutoff = now - 86400 * min_days_open`. -/
def build_fql_filter (c : FilterCriteria) (now : Nat) : String :=
  let fql := c.to_fql
  if 0 < c.min_days_open then
    let cutoff := now - 86400 * c.min_days_open
    let timestamp_str := isoFormat cutoff
    let days_filter := "created_timestamp:<'" ++ timestamp_str ++ "'"
    if fql = "" then days_filter else fql ++ "+" ++ days_filter
  else fql

/-- Whether `pat` is a prefix of the second list. -/
def charsPrefixOf : List Char → List Char → Bool
  | [], _ => true
  | _ :: _, [] => false
  | a :: as, b :: bs => a == b && charsPrefixOf as bs

/-- Whether `sub` occurs somewhere in the list. -/
def charsContains (sub : List Char) : List Char → Bool
  | [] => sub.isEmpty
  | c :: rest => charsPrefixOf sub (c :: rest) || charsContains sub rest

/-- Python's `sub in s` substring test. -/
def strContains (s sub : String) : Bool :=
  charsContains sub.data s.data

/-- `s.replace("Z", rep)`: `str.replace` for the one-character pattern the
source uses (every `'Z'` is replaced by `rep`). -/
def strReplaceZ (s rep : String) : String :=
  ⟨(s.data.map fun c => if c = 'Z' then rep.data else [c]).flatten⟩

/-- `Severity[severity_str] if severity_str in Severity.__members__ else
Severity.MEDIUM` from `_parse_resource`. -/
def severityFromStr (s : String) : Severity :=
  if s = "CRITICAL" then .CRITICAL
  else if s = "HIGH" then .HIGH
  else if s = "MEDIUM" then .MEDIUM
  else .MEDIUM

/-- `Device` dataclass from `src/models/device.py`, fields in source order. -/
structure Device where
  device_id : String
  hostname : String
  local_ip : String
  host_groups : List String
  os_version : String
  device_type : DeviceType
  platform_name : String
  cloud_account_id : Option String := none
  cloud_instance_id : Option String := none
  ad_domain : Option String := none
deriving Repr

/-- Modelled from the spec: the `Vulnerability` value of §3 (its module,
`src/models/vulnerability.py`, is not among the staged sources): CVE
identifier, severity, product-version list, computed age-in-days, detection
timestamp (epoch seconds here), optional numeric score, optional
description. -/
structure Vulnerability where
  cve_id : String
  severity : Severity
  product_versions : List String
  days_open : Int
  detected_date : Nat
  cvss_score : Option Rat := none
  description : Option String := none
deriving Repr

/-- Modelled from the spec: a `VulnerabilityRecord` composes one
`Vulnerability` value and one `Device` value (its module,
`src/models/vulnerability_record.py`, is not among the staged sources). -/
structure VulnerabilityRecord where
  vulnerability : Vulnerability
  device : Device
deriving Repr

/-- `Device.__post_init__` from `src/models/device.py`: constructing a
`Device` raises `ValueError` when `hostname` or `local_ip` is empty. -/
def mkDevice (d : Device) : Except String Device :=
  if d.hostname = "" then .error "hostname cannot be empty"
  else if d.local_ip = "" then .error "local_ip cannot be empty"
  else .ok d

/-- `FalconClient._parse_resource`.  `parseTs` models
`datetime.fromisoformat` (the instant as epoch seconds, `none` when it
raises, as it does on the empty string); `now` is `datetime.now(timezone.utc)`
in epoch seconds; `(now - detected).days` is the floored day difference,
`Int.fdiv`.  A `ValueError` from the `Device` constructor propagates as
`.error` (the pagination loop catches and skips it). -/
def parse_resource (parseTs : String → Option Nat) (now : Nat)
    (resource : RawResource) (criteria : FilterCriteria) :
    Except String VulnerabilityRecord :=
  let cve_data := resource.cve.getD {}
  let cve_id := cve_data.id.getD "UNKNOWN"
  let severity_str := strUpper (cve_data.severity.getD "MEDIUM")
  let severity := severityFromStr severity_str
  let cvss_score := cve_data.cvss_score
  let description := cve_data.description
  let apps_data := resource.apps.getD {}
  let product_name_version := apps_data.product_name_version.getD "Unknown"
  let product_versions := [product_name_version]
  let created_timestamp := resource.created_timestamp.getD ""
  let parsed := parseTs (strReplaceZ created_timestamp "+00:00")
  let detected_date := parsed.getD now
  let days_open : Int :=
    match parsed with
    | some t => Int.fdiv ((now : Int) - (t : Int)) 86400
    | none => 0
  let vulnerability : Vulnerability :=
    ⟨cve_id, severity, product_versions, days_open, detected_date,
     cvss_score, description⟩
  let host_data := resource.host.getD {}
  let device_id := resource.id.getD "UNKNOWN"
  let hostname := host_data.hostname.getD "UNKNOWN"
  let local_ip := host_data.local_ip.getD "0.0.0.0"
  let host_groups := host_data.groups.getD []
  let cloud_account_id := host_data.cloud_provider_account_id
  let cloud_instance_id := host_data.instance_id
  let os_version := host_data.os_version.getD "Unknown"
  let ad_domain := host_data.ad_domain
  let platform_name := host_data.platform_name.getD "Unknown"
  let device_type :=
    if strContains platform_name "Workstation" || strContains platform_name "Desktop" then
      DeviceType.CLIENT
    else if strContains platform_name "Server" then DeviceType.SERVER
    else criteria.device_type
  match mkDevice ⟨device_id, hostname, local_ip, host_groups, os_version,
      device_type, platform_name, cloud_account_id, cloud_instance_id,
      ad_domain⟩ with
  | .ok device => .ok ⟨vulnerability, device⟩
  | .error e => .error e

lemma queryWithRetryGo_success (attempt : Nat → Outcome) (r : Nat) (b : PageBody)
    (hr : r ≤ max_retries) (h : attempt r = .resp 200 b) :
    queryWithRetryGo attempt r = ⟨.ok b, 1, [], false⟩ := by
  rw [queryWithRetryGo]
  simp [hr, h]

lemma go_rateOrServer_exhaust (attempt : Nat → Outcome)
    (hA : ∀ k, RateOrServer (attempt k)) :
    ∀ n r, 5 - r ≤ n → r ≤ 5 →
    (queryWithRetryGo attempt r).outcome = Except.error ExitCode.API_ERROR := by
  intro n
  induction n with
  | zero =>
    intro r h1 h2
    have hr : r = 5 := by omega
    subst hr
    obtain ⟨s, b, he, hs⟩ := hA 5
    rw [queryWithRetryGo]
    simp only [he, max_retries]
    split_ifs <;> simp_all
  | succ n ih =>
    intro r h1 h2
    by_cases hr5 : r = 5
    · subst hr5
      obtain ⟨s, b, he, hs⟩ := hA 5
      rw [queryWithRetryGo]
      simp only [he, max_retries]
      split_ifs <;> simp_all
    · have ihr := ih (r + 1) (by omega) (by omega)
      obtain ⟨s, b, he, hs⟩ := hA r
      rw [queryWithRetryGo]
      simp only [he, max_retries]
      split_ifs <;> simp_all

lemma go_fellThrough_false (attempt : Nat → Outcome) :
    ∀ n r, 5 - r ≤ n → r ≤ 5 →
    (queryWithRetryGo attempt r).fellThrough = false := by
  intro n
  induction n with
  | zero =>
    intro r h1 h2
    have hr : r = 5 := by omega
    subst hr
    rw [queryWithRetryGo]
    rcases he : attempt 5 with ⟨s, b⟩ | t <;> simp only [he, max_retries] <;>
      split_ifs <;> simp_all
  | succ n ih =>
    intro r h1 h2
    by_cases hr5 : r = 5
    · subst hr5
      rw [queryWithRetryGo]
      rcases he : attempt 5 with ⟨s, b⟩ | t <;> simp only [he, max_retries] <;>
        split_ifs <;> simp_all
    · have ihr := ih (r + 1) (by omega) (by omega)
      rw [queryWithRetryGo]
      rcases he : attempt r with ⟨s, b⟩ | t <;> simp only [he, max_retries] <;>
        split_ifs <;> simp_all

lemma pageOffsets_eq_map : ∀ m offset,
    pageOffsets offset m = (List.range m).map fun i => offset + limit * i := by
  intro m
  induction m with
  | zero => intro offset; rfl
  | succ m ih =>
    intro offset
    rw [pageOffsets, ih (offset + limit), List.range_succ_eq_map]
    simp only [List.map_cons, List.map_map, Nat.mul_zero, Nat.add_zero]
    congr 1
    apply List.map_congr_left
    intro i _
    simp only [Function.comp_apply, Nat.succ_eq_add_one]
    ring

lemma go_run {α : Type} (attempt : Nat → Nat → Outcome) (parse : RawResource → Option α)
    (pages : Nat → PageBody) (T : Nat)
    (hA : ∀ off, attempt off 0 = .resp 200 (pages off))
    (hT : ∀ off, (pages off).total.getD 0 = T) :
    ∀ m offset acc offs atts dels fuel,
    1 ≤ m → m ≤ fuel →
    T ≤ offset + limit * m →
    (m = 1 ∨ offset + limit * (m - 1) < T) →
    queryVulnerabilitiesGo attempt parse fuel offset acc offs atts dels =
      some ⟨.ok (acc ++ pagesConcat parse pages offset m),
            offs ++ pageOffsets offset m, atts + m, dels⟩ := by
  intro m
  induction m with
  | zero => intro offset acc offs atts dels fuel h1; omega
  | succ m ih =>
    intro offset acc offs atts dels fuel h1 h2 h3 h4
    obtain ⟨fuel, rfl⟩ : ∃ f, fuel = f + 1 := ⟨fuel - 1, by omega⟩
    have hsucc : queryWithRetry (attempt offset) = ⟨.ok (pages offset), 1, [], false⟩ :=
      queryWithRetryGo_success (attempt offset) 0 (pages offset) (by simp [max_retries]) (hA offset)
    rcases Nat.eq_zero_or_pos m with hm | hm
    · subst hm
      rw [queryVulnerabilitiesGo]
      simp only [hsucc, hT offset]
      have hterm : offset + limit ≥ T := by
        have := h3; simp only [Nat.mul_one] at this; omega
      simp [hterm, pagesConcat, pageOffsets]
    · have hlt : offset + limit * m < T := by
        rcases h4 with h | h
        · omega
        · simpa using h
      rw [queryVulnerabilitiesGo]
      simp only [hsucc, hT offset]
      have hterm : ¬ offset + limit ≥ T := by
        have hl : limit ≤ limit * m := Nat.le_mul_of_pos_right limit hm
        omega
      simp only [ge_iff_le, hterm, if_false, List.append_nil]
      rw [ih (offset + limit) (acc ++ (pages offset).resources.filterMap parse)
        (offs ++ [offset]) (atts + 1) dels fuel hm (by omega)
        (by rw [Nat.mul_succ] at h3; omega)
        (by rcases Nat.eq_or_lt_of_le hm with h | h
            · left; omega
            · right
              have hm1 : m = (m - 1) + 1 := by omega
              rw [hm1, Nat.mul_succ] at hlt
              omega)]
      rw [pagesConcat, pageOffsets]
      simp only [List.append_assoc, List.cons_append, List.nil_append, Option.some.injEq]
      congr 1
      omega

lemma numPages_pos (T : Nat) : 1 ≤ numPages T := le_max_left 1 _

lemma numPages_covers (T : Nat) : T ≤ 0 + limit * numPages T := by
  simp only [numPages, limit]
  omega

lemma numPages_tight (T : Nat) :
    numPages T = 1 ∨ 0 + limit * (numPages T - 1) < T := by
  simp only [numPages, limit]
  omega

lemma pagesConcat_split {α : Type} (parse : RawResource → Option α)
    (pages : Nat → PageBody) : ∀ j k offset,
    pagesConcat parse pages offset (j + k + 1) =
      pagesConcat parse pages offset j ++
      ((pages (offset + limit * j)).resources.filterMap parse ++
       pagesConcat parse pages (offset + limit * (j + 1)) k) := by
  intro j
  induction j with
  | zero =>
    intro k offset
    simp [pagesConcat, Nat.mul_zero, Nat.mul_one]
  | succ j ih =>
    intro k offset
    have harr : j + 1 + k + 1 = (j + k + 1) + 1 := by omega
    rw [harr, pagesConcat, ih k (offset + limit), pagesConcat]
    have e1 : offset + limit + limit * j = offset + limit * (j + 1) := by ring
    have e2 : offset + limit + limit * (j + 1) = offset + limit * (j + 1 + 1) := by ring
    rw [e1, e2, List.append_assoc]

lemma strNeOfHead (s t : String) (a b : Char) (ls lt : List Char)
    (hs : s.data = a :: ls) (ht : t.data = b :: lt) (h : a ≠ b) : s ≠ t := by
  intro he
  rw [he, ht] at hs
  exact h (List.head_eq_of_cons_eq hs).symm

lemma strNeEmptyOfHead (s : String) (a : Char) (ls : List Char)
    (hs : s.data = a :: ls) : s ≠ "" := by
  intro he
  rw [he] at hs
  exact List.noConfusion hs

lemma joinSep_ne_empty (sep : String) :
    ∀ (x : String) (xs : List String), x ≠ "" → joinSep sep (x :: xs) ≠ "" := by
  intro x xs hx
  match xs with
  | [] => exact hx
  | y :: ys =>
    intro he
    have hd := congrArg String.data he
    simp only [joinSep, String.data_append] at hd
    rcases List.append_eq_nil.mp (List.append_eq_nil.mp hd).1 with ⟨h1, _⟩
    exact hx (String.ext h1)

/-- Any member of `filtersList` whose first character is `'p'` comes from
the device-type part: the severity clause starts with `'c'` and the
domain/hostname clauses start with `'h'`. -/
lemma mem_filtersList_platform (c : FilterCriteria) (x : String)
    (hx : x ∈ filtersList c) (hp : x.data.head? = some 'p') :
    x ∈ (if c.device_type = DeviceType.CLIENT then ["platform_name:*'Workstation'"]
         else if c.device_type = DeviceType.SERVER then ["platform_name:*'Server'"]
         else []) := by
  rw [filtersList] at hx
  rcases List.mem_append.mp hx with hx3 | hxHost
  · rcases List.mem_append.mp hx3 with hx2 | hxDom
    · rcases List.mem_append.mp hx2 with hxDev | hxSev
      · exact hxDev
      · exfalso
        have hxs : x = sevClause c := by
          rcases hse : c.severities.isEmpty <;> rw [hse] at hxSev <;> simp_all
        rw [hxs] at hp
        have h0 : (sevClause c).data.head? = some 'c' := rfl
        rw [h0] at hp
        exact absurd (Option.some.inj hp) (by decide)
    · exfalso
      rcases ho : c.ad_domain with _ | d <;> rw [ho] at hxDom
      · exact List.not_mem_nil x hxDom
      · by_cases hd : d = "" <;> simp only [hd, reduceIte, if_neg, if_pos] at hxDom
        · exact List.not_mem_nil x hxDom
        · have hxs := List.mem_singleton.mp hxDom
          rw [hxs] at hp
          have h0 : ("host.ad_domain:'" ++ d ++ "'").data.head? = some 'h' := rfl
          rw [h0] at hp
          exact absurd (Option.some.inj hp) (by decide)
  · exfalso
    rcases ho : c.hostname with _ | h <;> rw [ho] at hxHost
    · exact List.not_mem_nil x hxHost
    · by_cases hd : h = "" <;> simp only [hd, reduceIte, if_neg, if_pos] at hxHost
      · exact List.not_mem_nil x hxHost
      · have hxs := List.mem_singleton.mp hxHost
        rw [hxs] at hp
        have h0 : ("host.hostname:'" ++ h ++ "'").data.head? = some 'h' := rfl
        rw [h0] at hp
        exact absurd (Option.some.inj hp) (by decide)

lemma mem_filtersList_ne_empty (c : FilterCriteria) (x : String)
    (hx : x ∈ filtersList c) : x ≠ "" := by
  rw [filtersList] at hx
  rcases List.mem_append.mp hx with hx3 | hxHost
  · rcases List.mem_append.mp hx3 with hx2 | hxDom
    · rcases List.mem_append.mp hx2 with hxDev | hxSev
      · rcases hdt : c.device_type <;> rw [hdt] at hxDev <;> simp_all
      · have hxs : x = sevClause c := by
          rcases hse : c.severities.isEmpty <;> rw [hse] at hxSev <;> simp_all
        rw [hxs]
        exact strNeEmptyOfHead (sevClause c) 'c' _ rfl
    · rcases ho : c.ad_domain with _ | d <;> rw [ho] at hxDom
      · exact absurd hxDom (List.not_mem_nil x)
      · by_cases hd : d = "" <;> simp only [hd, reduceIte, if_neg, if_pos] at hxDom
        · exact absurd hxDom (List.not_mem_nil x)
        · rw [List.mem_singleton.mp hxDom]
          exact strNeEmptyOfHead ("host.ad_domain:'" ++ d ++ "'") 'h' _ rfl
  · rcases ho : c.hostname with _ | h <;> rw [ho] at hxHost
    · exact absurd hxHost (List.not_mem_nil x)
    · by_cases hd : h = "" <;> simp only [hd, reduceIte, if_neg, if_pos] at hxHost
      · exact absurd hxHost (List.not_mem_nil x)
      · rw [List.mem_singleton.mp hxHost]
        exact strNeEmptyOfHead ("host.hostname:'" ++ h ++ "'") 'h' _ rfl

lemma severities_isEmpty_false (c : FilterCriteria) (hs : c.severities ≠ []) :
    c.severities.isEmpty = false := by
  cases h : c.severities
  · exact absurd h hs
  · rfl

lemma sevClause_mem_filtersList (c : FilterCriteria) (hs : c.severities ≠ []) :
    sevClause c ∈ filtersList c := by
  rw [filtersList]
  simp [severities_isEmpty_false c hs]

lemma to_fql_ne_empty (c : FilterCriteria) (hs : c.severities ≠ []) :
    c.to_fql ≠ "" := by
  have hsev := sevClause_mem_filtersList c hs
  cases hl : filtersList c with
  | nil =>
    rw [hl] at hsev
    exact absurd hsev (List.not_mem_nil _)
  | cons x xs =>
    have hxne : x ≠ "" :=
      mem_filtersList_ne_empty c x (hl ▸ List.mem_cons_self x xs)
    rw [FilterCriteria.to_fql, hl]
    simp only [List.isEmpty_cons, Bool.false_eq_true, if_neg, reduceIte]
    exact joinSep_ne_empty "+" x xs hxne

/-- Claim C3: if every fetch attempt returns a rate-limited (429-class)
outcome, `_query_with_retry` makes exactly 6 attempts (1 initial + 5
retries), sleeps exponentially growing delays of 1, 2, 4, 8, 16 time-units
(base delay 1.0, `delay = base * 2^attemptIndex`) for a cumulative delay of
31 time-units, and then fails fatally with the retries-exhausted
classification (`ExitCode.API_ERROR`). -/
theorem retry_exhaustion_rate_limited (attempt : Nat → Outcome)
    (h : ∀ k, ∃ b, attempt k = .resp 429 b) :
    (queryWithRetry attempt).attempts = 6 ∧
    (queryWithRetry attempt).delays = [1, 2, 4, 8, 16] ∧
    (queryWithRetry attempt).delays.sum = 31 ∧
    (queryWithRetry attempt).outcome = Except.error ExitCode.API_ERROR := by
  obtain ⟨b0, h0⟩ := h 0
  obtain ⟨b1, h1⟩ := h 1
  obtain ⟨b2, h2⟩ := h 2
  obtain ⟨b3, h3⟩ := h 3
  obtain ⟨b4, h4⟩ := h 4
  obtain ⟨b5, h5⟩ := h 5
  refine ⟨?_, ?_, ?_, ?_⟩ <;>
    simp [queryWithRetry, queryWithRetryGo, max_retries, h0, h1, h2, h3, h4, h5]

/-- Witness for C3 at the constant always-429 oracle. -/
theorem retry_exhaustion_rate_limited_witness :
    (∀ k, ∃ b, (fun _ : Nat => Outcome.resp 429 {}) k = Outcome.resp 429 b) ∧
    (queryWithRetry (fun _ => Outcome.resp 429 {})).delays.sum = 31 :=
  ⟨fun _ => ⟨{}, rfl⟩,
   (retry_exhaustion_rate_limited (fun _ => .resp 429 {}) (fun _ => ⟨{}, rfl⟩)).2.2.1⟩

/-- Claim C4: a fetch attempt returning an authentication-failure (401)
status makes `_query_with_retry` fail fatally at once with
`ExitCode.AUTH_ERROR`: one attempt from that point, no retries, no backoff
delays, however much retry budget remains (any `retries ≤ max_retries`). -/
theorem retry_auth_short_circuit (attempt : Nat → Outcome) (r : Nat) (b : PageBody)
    (hr : r ≤ max_retries) (h : attempt r = .resp 401 b) :
    queryWithRetryGo attempt r = ⟨.error ExitCode.AUTH_ERROR, 1, [], false⟩ := by
  rw [queryWithRetryGo]
  simp [hr, h]

/-- Witness for C4 with a 401 response arriving at `retries = 3`. -/
theorem retry_auth_short_circuit_witness :
    3 ≤ max_retries ∧
    queryWithRetryGo (fun _ => Outcome.resp 401 {}) 3 =
      ⟨.error ExitCode.AUTH_ERROR, 1, [], false⟩ :=
  ⟨by decide, retry_auth_short_circuit (fun _ => .resp 401 {}) 3 {} (by decide) rfl⟩

/-- Claim C10: starting from `retries = 0`, the `retries` counter never
exceeds `max_retries` at the top of the loop, so the post-loop fallback
branch of `_query_with_retry` is unreachable: whatever the network oracle
does, the result is produced inside the loop. -/
theorem retry_no_fallthrough (attempt : Nat → Outcome) :
    (queryWithRetry attempt).fellThrough = false :=
  go_fellThrough_false attempt 5 0 (by omega) (by omega)

/-- Counterexample to C2 as stated: exhausting the retry budget on
rate-limited (429) outcomes raises exactly the same classification
(`ExitCode.API_ERROR`) as an immediately-fatal non-retryable status
rejection (403), so the two are not distinct. -/
theorem retry_exhaust_counterexample :
    (queryWithRetry (fun _ => Outcome.resp 429 {})).outcome =
      (queryWithRetry (fun _ => Outcome.resp 403 {})).outcome ∧
    (queryWithRetry (fun _ => Outcome.resp 429 {})).outcome =
      Except.error ExitCode.API_ERROR ∧
    (queryWithRetry (fun _ => Outcome.resp 403 {})).outcome =
      Except.error ExitCode.API_ERROR := by
  refine ⟨?_, ?_, ?_⟩ <;> simp [queryWithRetry, queryWithRetryGo, max_retries]

/-- Claim C2 (amended): when the retry budget is exhausted on rate-limited
or transient-server outcomes, `_query_with_retry` fails fatally with
`ExitCode.API_ERROR`, the same classification used for an immediately-fatal
non-retryable status rejection: the two cases are not distinguishable at
the core's boundary. -/
theorem retry_exhaustion_classification (attempt bad : Nat → Outcome)
    (hA : ∀ k, RateOrServer (attempt k))
    (s : Nat) (b : PageBody) (hb : bad 0 = .resp s b)
    (hs : s ≠ 200 ∧ s ≠ 401 ∧ s ≠ 429 ∧ s ≠ 502 ∧ s ≠ 503 ∧ s ≠ 504) :
    (queryWithRetry attempt).outcome = Except.error ExitCode.API_ERROR ∧
    (queryWithRetry bad).outcome = Except.error ExitCode.API_ERROR ∧
    (queryWithRetry attempt).outcome = (queryWithRetry bad).outcome := by
  obtain ⟨hs1, hs2, hs3, hs4, hs5, hs6⟩ := hs
  have h1 : (queryWithRetry attempt).outcome = Except.error ExitCode.API_ERROR :=
    go_rateOrServer_exhaust attempt hA 5 0 (by omega) (by omega)
  have h2 : (queryWithRetry bad).outcome = Except.error ExitCode.API_ERROR := by
    rw [queryWithRetry, queryWithRetryGo]
    simp [hb, hs1, hs2, hs3, hs4, hs5, hs6, max_retries]
  exact ⟨h1, h2, by rw [h1, h2]⟩

/-- Witness for the amended C2: always-429 oracle versus an immediate 403. -/
theorem retry_exhaustion_classification_witness :
    (∀ k, RateOrServer ((fun _ : Nat => Outcome.resp 429 {}) k)) ∧
    ((403 : Nat) ≠ 200 ∧ (403 : Nat) ≠ 401 ∧ (403 : Nat) ≠ 429 ∧
      (403 : Nat) ≠ 502 ∧ (403 : Nat) ≠ 503 ∧ (403 : Nat) ≠ 504) ∧
    (queryWithRetry (fun _ => Outcome.resp 429 {})).outcome =
      (queryWithRetry (fun _ => Outcome.resp 403 {})).outcome :=
  ⟨fun _ => ⟨429, {}, rfl, Or.inl rfl⟩, by decide,
   (retry_exhaustion_classification (fun _ => .resp 429 {}) (fun _ => .resp 403 {})
     (fun _ => ⟨429, {}, rfl, Or.inl rfl⟩) 403 {} rfl (by decide)).2.2⟩

/-- Claim C1 (amended): when every page reports the same `totalCount = T`
and every fetch succeeds, `query_vulnerabilities` issues exactly
`max 1 (ceil(T / limit))` fetches (i.e. `ceil(T / limit)` when `T ≥ 1`, but
one fetch when `T = 0`), at offsets `0, limit, 2*limit, ...` in strictly
increasing order, and returns the concatenation of all pages' parsed
resources, each page's internal order preserved. -/
theorem pagination_run {α : Type} (attempt : Nat → Nat → Outcome)
    (parse : RawResource → Option α) (pages : Nat → PageBody) (T : Nat)
    (hA : ∀ off, attempt off 0 = .resp 200 (pages off))
    (hT : ∀ off, (pages off).total.getD 0 = T) :
    query_vulnerabilities attempt parse (numPages T) =
      some ⟨.ok (pagesConcat parse pages 0 (numPages T)),
            pageOffsets 0 (numPages T), numPages T, []⟩ ∧
    pageOffsets 0 (numPages T) =
      (List.range (numPages T)).map (fun i => limit * i) ∧
    (pageOffsets 0 (numPages T)).Pairwise (· < ·) := by
  have hoff : pageOffsets 0 (numPages T) =
      (List.range (numPages T)).map fun i => limit * i := by
    rw [pageOffsets_eq_map]
    simp
  refine ⟨?_, hoff, ?_⟩
  · rw [query_vulnerabilities,
      go_run attempt parse pages T hA hT (numPages T) 0 [] [] 0 [] (numPages T)
        (numPages_pos T) le_rfl (numPages_covers T) (numPages_tight T)]
    simp
  · rw [hoff]
    refine List.Pairwise.map _ (fun a b hab => ?_) (List.pairwise_lt_range _)
    have hl : 0 < limit := by simp [limit]
    exact (Nat.mul_lt_mul_left hl).mpr hab

/-- Witness for the amended C1: two pages with `totalCount = 700`. -/
theorem pagination_run_witness :
    (∀ off, (fun _ _ : Nat => Outcome.resp 200 ⟨[], some 700⟩) off 0 =
      Outcome.resp 200 ((fun _ : Nat => (⟨[], some 700⟩ : PageBody)) off)) ∧
    numPages 700 = 2 ∧
    query_vulnerabilities (fun _ _ => Outcome.resp 200 ⟨[], some 700⟩)
        (fun _ : RawResource => (none : Option Unit)) (numPages 700) =
      some ⟨.ok (pagesConcat (fun _ => (none : Option Unit))
                  (fun _ => (⟨[], some 700⟩ : PageBody)) 0 (numPages 700)),
            pageOffsets 0 (numPages 700), numPages 700, []⟩ :=
  ⟨fun _ => rfl, by decide,
   (pagination_run (fun _ _ => Outcome.resp 200 ⟨[], some 700⟩)
      (fun _ => (none : Option Unit)) (fun _ => ⟨[], some 700⟩) 700
      (fun _ => rfl) (fun _ => rfl)).1⟩

/-- Counterexample to C1 as stated: with `totalCount = 0` the loop still
issues one fetch, while `ceil(0 / limit) = 0`. -/
theorem pagination_zero_total_counterexample :
    (query_vulnerabilities (fun _ _ => Outcome.resp 200 ⟨[], some 0⟩)
        (fun _ : RawResource => (none : Option Unit)) 1).map
      (fun r => r.offsets.length) = some 1 ∧
    (0 + limit - 1) / limit = 0 := by
  constructor
  · simp [query_vulnerabilities, queryVulnerabilitiesGo, queryWithRetry,
      queryWithRetryGo, max_retries, limit]
  · simp [limit]


/-- Claim C5: a first page response with an empty `resources` list and
`totalCount = 0` (or `totalCount` absent, treated as zero remaining) makes
`query_vulnerabilities` return an empty record list after exactly one fetch
(offset 0), one network attempt (no retries), no backoff delays and no
fatal error. -/
theorem pagination_empty_first_page {α : Type} (attempt : Nat → Nat → Outcome)
    (parse : RawResource → Option α)
    (h : attempt 0 0 = .resp 200 ⟨[], none⟩ ∨ attempt 0 0 = .resp 200 ⟨[], some 0⟩) :
    query_vulnerabilities attempt parse 1 = some ⟨.ok [], [0], 1, []⟩ := by
  rcases h with h | h <;>
  · have hs := queryWithRetryGo_success (attempt 0) 0 _ (by simp [max_retries]) h
    rw [query_vulnerabilities, queryVulnerabilitiesGo]
    simp [queryWithRetry, hs, limit]

/-- Witness for C5 with `totalCount = 0` on the first page. -/
theorem pagination_empty_first_page_witness :
    ((fun _ _ : Nat => Outcome.resp 200 ⟨[], some 0⟩) 0 0 =
        Outcome.resp 200 ⟨[], none⟩ ∨
      (fun _ _ : Nat => Outcome.resp 200 ⟨[], some 0⟩) 0 0 =
        Outcome.resp 200 ⟨[], some 0⟩) ∧
    query_vulnerabilities (fun _ _ => Outcome.resp 200 ⟨[], some 0⟩)
        (fun _ : RawResource => (none : Option Unit)) 1 =
      some ⟨.ok [], [0], 1, []⟩ :=
  ⟨Or.inr rfl,
   pagination_empty_first_page (fun _ _ => Outcome.resp 200 ⟨[], some 0⟩)
     (fun _ => (none : Option Unit)) (Or.inr rfl)⟩

/-- Claim C6: if parsing one raw element of a page raises, that element is
skipped while the rest of the page is still parsed and appended in order,
and the whole retrieval still runs to completion with a non-fatal result:
page `j` contributes exactly `pre.filterMap parse ++ post.filterMap parse`
when its resources are `pre ++ bad :: post` and `parse bad` fails. -/
theorem parse_failure_skipped {α : Type} (attempt : Nat → Nat → Outcome)
    (parse : RawResource → Option α) (pages : Nat → PageBody) (T j : Nat)
    (pre post : List RawResource) (bad : RawResource)
    (hA : ∀ off, attempt off 0 = .resp 200 (pages off))
    (hT : ∀ off, (pages off).total.getD 0 = T)
    (hj : j < numPages T)
    (hres : (pages (limit * j)).resources = pre ++ bad :: post)
    (hbad : parse bad = none) :
    query_vulnerabilities attempt parse (numPages T) =
      some ⟨.ok (pagesConcat parse pages 0 j ++
              ((pre.filterMap parse ++ post.filterMap parse) ++
               pagesConcat parse pages (limit * (j + 1)) (numPages T - j - 1))),
            pageOffsets 0 (numPages T), numPages T, []⟩ := by
  rw [query_vulnerabilities,
    go_run attempt parse pages T hA hT (numPages T) 0 [] [] 0 [] (numPages T)
      (numPages_pos T) le_rfl (numPages_covers T) (numPages_tight T)]
  have hm : numPages T = j + (numPages T - j - 1) + 1 := by omega
  have hrec : pagesConcat parse pages 0 (numPages T) =
      pagesConcat parse pages 0 j ++
        ((pre.filterMap parse ++ post.filterMap parse) ++
         pagesConcat parse pages (limit * (j + 1)) (numPages T - j - 1)) := by
    conv_lhs => rw [hm]
    rw [pagesConcat_split parse pages j (numPages T - j - 1) 0]
    simp only [Nat.zero_add]
    rw [hres]
    simp [List.filterMap_append, hbad]
  rw [hrec]
  simp

/-- Witness for C6: a two-element page whose second element fails to parse. -/
theorem parse_failure_skipped_witness :
    (∀ off, (fun _ _ : Nat =>
        Outcome.resp 200 ⟨[{ id := some "x" }, {}], some 1⟩) off 0 =
      Outcome.resp 200 ((fun _ : Nat =>
        (⟨[{ id := some "x" }, {}], some 1⟩ : PageBody)) off)) ∧
    (0 < numPages 1 ∧ (fun r : RawResource => r.id) {} = none) ∧
    query_vulnerabilities
        (fun _ _ => Outcome.resp 200 ⟨[{ id := some "x" }, {}], some 1⟩)
        (fun r : RawResource => r.id) (numPages 1) =
      some ⟨.ok (pagesConcat (fun r : RawResource => r.id)
              (fun _ => (⟨[{ id := some "x" }, {}], some 1⟩ : PageBody)) 0 0 ++
            (([({ id := some "x" } : RawResource)].filterMap (fun r => r.id) ++
              ([] : List RawResource).filterMap (fun r => r.id)) ++
             pagesConcat (fun r : RawResource => r.id)
              (fun _ => (⟨[{ id := some "x" }, {}], some 1⟩ : PageBody))
              (limit * (0 + 1)) (numPages 1 - 0 - 1))),
            pageOffsets 0 (numPages 1), numPages 1, []⟩ :=
  ⟨fun _ => rfl, ⟨by simp [numPages], rfl⟩,
   parse_failure_skipped
     (fun _ _ => Outcome.resp 200 ⟨[{ id := some "x" }, {}], some 1⟩)
     (fun r => r.id)
     (fun _ => ⟨[{ id := some "x" }, {}], some 1⟩) 1 0
     [{ id := some "x" }] [] {} (fun _ => rfl) (fun _ => rfl)
     (by simp [numPages]) rfl rfl⟩

/-- Claim C8: for every valid FilterCriteria (non-empty severities), the
filter builder's output joins `filtersList` with `+`, that list contains the
severity clause (a disjunctive membership test over all requested
severities, uppercase and quoted), and contains a device-class clause iff
the device class is not BOTH: CLIENT contributes
`platform_name:*'Workstation'` and SERVER contributes
`platform_name:*'Server'`. -/
theorem to_fql_clauses (c : FilterCriteria) (hs : c.severities ≠ []) :
    c.to_fql = joinSep "+" (filtersList c) ∧
    sevClause c ∈ filtersList c ∧
    ("platform_name:*'Workstation'" ∈ filtersList c ↔
      c.device_type = DeviceType.CLIENT) ∧
    ("platform_name:*'Server'" ∈ filtersList c ↔
      c.device_type = DeviceType.SERVER) ∧
    (∀ s : Severity, strUpper s.value = s.value) := by
  have hsev := sevClause_mem_filtersList c hs
  refine ⟨?_, hsev, ⟨?_, ?_⟩, ⟨?_, ?_⟩, ?_⟩
  · cases hl : filtersList c with
    | nil =>
      rw [hl] at hsev
      exact absurd hsev (List.not_mem_nil _)
    | cons x xs =>
      rw [FilterCriteria.to_fql, hl]
      simp
  · intro hmem
    have hin := mem_filtersList_platform c _ hmem rfl
    rcases hdt : c.device_type <;> rw [hdt] at hin <;> simp_all
  · intro hdt
    rw [filtersList, hdt]
    simp
  · intro hmem
    have hin := mem_filtersList_platform c _ hmem rfl
    rcases hdt : c.device_type <;> rw [hdt] at hin <;> simp_all
  · intro hdt
    rw [filtersList, hdt]
    simp
  · intro s
    cases s <;> decide

/-- Witness for C8 with `criteria = (SERVER, [CRITICAL, HIGH], 0)`. -/
theorem to_fql_clauses_witness :
    ((⟨DeviceType.SERVER, [Severity.CRITICAL, Severity.HIGH], 0, none, none⟩ :
        FilterCriteria).severities ≠ []) ∧
    ("platform_name:*'Server'" ∈
        filtersList ⟨DeviceType.SERVER, [Severity.CRITICAL, Severity.HIGH], 0, none, none⟩ ↔
      (⟨DeviceType.SERVER, [Severity.CRITICAL, Severity.HIGH], 0, none, none⟩ :
        FilterCriteria).device_type = DeviceType.SERVER) :=
  ⟨by decide,
   (to_fql_clauses ⟨DeviceType.SERVER, [Severity.CRITICAL, Severity.HIGH], 0, none, none⟩
     (by decide)).2.2.2.1⟩

/-- Claim C7: for every FilterCriteria (with the non-empty-severities
invariant), the built query fragment carries a created-before clause iff
`min_days_open > 0`; when present it is joined to `to_fql`'s output with
the `+` conjunction, its timestamp is exactly `now` minus `min_days_open`
days of 86400 seconds, rendered by the second-precision ISO-8601 formatter,
and it ends with the literal `Z` suffix. -/
theorem build_fql_filter_age_clause (c : FilterCriteria) (now : Nat)
    (hs : c.severities ≠ []) :
    (0 < c.min_days_open →
      build_fql_filter c now =
        c.to_fql ++ "+" ++
          ("created_timestamp:<'" ++ isoFormat (now - 86400 * c.min_days_open) ++ "'") ∧
      (∃ p, isoFormat (now - 86400 * c.min_days_open) = p ++ "Z")) ∧
    (c.min_days_open = 0 → build_fql_filter c now = c.to_fql) := by
  have hne := to_fql_ne_empty c hs
  constructor
  · intro hpos
    constructor
    · rw [build_fql_filter]
      simp [hpos, hne]
    · exact ⟨isoBody (now - 86400 * c.min_days_open), rfl⟩
  · intro hz
    rw [build_fql_filter, hz]
    simp

/-- Witness for C7 at `min_days_open = 3` and a fixed clock instant. -/
theorem build_fql_filter_age_clause_witness :
    ((⟨DeviceType.BOTH, [Severity.CRITICAL], 3, none, none⟩ :
        FilterCriteria).severities ≠ [] ∧
      0 < (⟨DeviceType.BOTH, [Severity.CRITICAL], 3, none, none⟩ :
        FilterCriteria).min_days_open) ∧
    build_fql_filter ⟨DeviceType.BOTH, [Severity.CRITICAL], 3, none, none⟩ 1760000000 =
      (⟨DeviceType.BOTH, [Severity.CRITICAL], 3, none, none⟩ :
          FilterCriteria).to_fql ++ "+" ++
        ("created_timestamp:<'" ++ isoFormat (1760000000 - 86400 * 3) ++ "'") :=
  ⟨⟨by decide, by decide⟩,
   ((build_fql_filter_age_clause
       ⟨DeviceType.BOTH, [Severity.CRITICAL], 3, none, none⟩ 1760000000
       (by decide)).1 (by decide)).1⟩

/-- Claim C9: a raw element missing all optional fields parses, without
raising, to a record with CVE identifier `"UNKNOWN"`, severity MEDIUM,
age-in-days 0, device class equal to the criteria's requested device class,
product-version list `["Unknown"]`, hostname `"UNKNOWN"` and local address
`"0.0.0.0"`. -/
theorem parse_resource_defaults (parseTs : String → Option Nat) (now : Nat)
    (criteria : FilterCriteria) (hp : parseTs "" = none) :
    parse_resource parseTs now {} criteria =
      .ok ⟨⟨"UNKNOWN", Severity.MEDIUM, ["Unknown"], 0, now, none, none⟩,
           ⟨"UNKNOWN", "UNKNOWN", "0.0.0.0", [], "Unknown",
            criteria.device_type, "Unknown", none, none, none⟩⟩ := by
  have hrep : strReplaceZ "" "+00:00" = "" := rfl
  have h1 : strContains "Unknown" "Workstation" = false := rfl
  have h2 : strContains "Unknown" "Desktop" = false := rfl
  have h3 : strContains "Unknown" "Server" = false := rfl
  rw [parse_resource]
  simp [hrep, hp, h1, h2, h3, mkDevice, severityFromStr, strUpper]

/-- Witness for C9 at a concrete failing timestamp parser and clock. -/
theorem parse_resource_defaults_witness :
    ((fun _ : String => (none : Option Nat)) "" = none) ∧
    parse_resource (fun _ => none) 1000
        {} ⟨DeviceType.BOTH, [Severity.CRITICAL], 0, none, none⟩ =
      .ok ⟨⟨"UNKNOWN", Severity.MEDIUM, ["Unknown"], 0, 1000, none, none⟩,
           ⟨"UNKNOWN", "UNKNOWN", "0.0.0.0", [], "Unknown",
            DeviceType.BOTH, "Unknown", none, none, none⟩⟩ :=
  ⟨rfl,
   parse_resource_defaults (fun _ => none) 1000
     ⟨DeviceType.BOTH, [Severity.CRITICAL], 0, none, none⟩ rfl⟩

end Secman
